import Mathlib

/-!
# Verification of the `InlineSVGDirective` loader (src/inline-svg.directive.ts)

Shallow embedding of the SVG-loading directive: its configuration inputs, the
per-instance mutable state (`_prevUrl`, `_ranScripts`, `_subscription`), the
processing pipeline (`_insertSVG` → cache → `_processSvg` → `_insertEl` /
`_evalScripts` / `_fail`), and an event-trace machine that composes the
directive with the (spec-modelled) `SVGCacheService`.

Observable behaviour is recorded as a list of `Event`s: calls into the cache,
network fetches, script executions, hand-offs to the insertion sink, and the
two output emitters (`onSVGInserted`, `onSVGFailed`).
-/

namespace InlineSVG

/-- A `<script>` child of the SVG, as seen through the DOM calls the directive
makes: its `type` attribute (`none` when absent), its text, and whether invoking
`new Function(text)(window)` would throw at run time. -/
structure Script where
  scriptType : Option String
  text : String
  throws : Bool
deriving DecidableEq

/-- A `<symbol>` inside an SVG document, as far as symbol extraction needs. -/
structure SvgSymbol where
  symbolId : String
  viewBox : String
deriving DecidableEq

/-- In-memory SVG element tree, flattened to the features the directive reads:
root attributes, descendant `<script>` elements (in document order, as
`querySelectorAll` returns them), descendant `<style>` text contents, and
`<symbol>` definitions. -/
structure SvgElem where
  rootAttrs : List (String × String)
  scripts : List Script
  styles : List String
  symbols : List SvgSymbol
deriving DecidableEq

/-- Content handed to the insertion sink: a (possibly transformed) SVG element,
a fallback `<img>` with the given `src`, or a missing (`null`) value. -/
inductive Content where
  | svg (el : SvgElem)
  | img (src : String)
  | missing
deriving DecidableEq

/-- Observable events of a directive instance, in order of occurrence. -/
inductive Event where
  /-- A call to `SVGCacheService.getSVG(url, cache)`. -/
  | getSVG (url : String) (useCache : Bool)
  /-- The cache serves `url` from its `Ready` store (no network access). -/
  | cacheHit (url : String)
  /-- A network fetch for `url` starts. -/
  | fetch (url : String)
  /-- Invocation of `new Function(text)(window)` for one stripped script. -/
  | execScript (text : String)
  /-- Call to `InlineSVGService.insertEl(..., replaceContents, prepend)`: the raw
  DOM insertion path of `_insertEl`. -/
  | insertRaw (el : Content) (replaceContents prepend : Bool)
  /-- The component-injection path of `_insertEl`. -/
  | insertComp (el : Content) (replaceContents prepend : Bool)
  /-- Emission on `onSVGInserted`. -/
  | emitInserted (el : Content)
  /-- Emission on `onSVGFailed`. -/
  | emitFailed (msg : String)
deriving DecidableEq

/-- Input policy `evalScripts`: `'always' | 'once' | 'never'`. -/
inductive EvalMode where
  | always
  | once
  | never
deriving DecidableEq

/-- The directive's `@Input()` configuration plus platform facts, fixed for a
given instance/trace.  `onSVGLoaded` is the caller's post-load hook; a missing
return value (`undefined`) is modelled as `none`. -/
structure Config where
  replaceContents : Bool
  prepend : Bool
  injectComponent : Bool
  cacheSVG : Bool
  removeSVGAttributes : Option (List String)
  forceEvalStyles : Bool
  evalScripts : EvalMode
  fallbackImgUrl : Option String
  onSVGLoaded : Option (SvgElem → Option SvgElem)
  isBrowser : Bool
  isServer : Bool
  supportsSVG : Bool

/-- JavaScript truthiness of an optional string input (`undefined` and `""`
are falsy). -/
def truthyStr : Option String → Bool
  | none => false
  | some s => !(s == "")

/-- Eligibility test of `_evalScripts`'s scan loop:
`!scriptType || scriptType === 'application/ecmascript' ||
scriptType === 'application/javascript'`. -/
def eligible (s : Script) : Bool :=
  match s.scriptType with
  | none => true
  | some t => t == "" || t == "application/ecmascript" || t == "application/javascript"

/-- The eval loop `for i: new Function(scriptsToEval[i])(window)`: returns the
`execScript` events of the scripts invoked, and whether one of them threw
(which aborts the remaining iterations). -/
def runScripts : List Script → List Event × Bool
  | [] => ([], false)
  | s :: rest =>
    if s.throws then ([Event.execScript s.text], true)
    else
      let r := runScripts rest
      (Event.execScript s.text :: r.1, r.2)

/-- Result of `_evalScripts`: the element with eligible scripts stripped, the
execution events, the updated `_ranScripts` record, and whether a script threw
(propagating the exception out of `_evalScripts`). -/
structure EvalOut where
  svg : SvgElem
  events : List Event
  ranScripts : List String
  threw : Bool
deriving DecidableEq

/-- Embedding of `_evalScripts(svg)` (lines 190–217).  `ran` is the current
`_ranScripts` record (the set of URLs marked true); `url` is the directive's
current `inlineSVG`, used as the record key. -/
def _evalScripts (cfg : Config) (ran : List String) (url : String) (svg : SvgElem) :
    EvalOut :=
  if !cfg.isBrowser then ⟨svg, [], ran, false⟩
  else
    let toEval := svg.scripts.filter eligible
    let stripped : SvgElem := { svg with scripts := svg.scripts.filter (fun s => !eligible s) }
    if toEval.length > 0 &&
        (cfg.evalScripts == EvalMode.always ||
          (cfg.evalScripts == EvalMode.once && !(ran.contains url))) then
      let r := runScripts toEval
      if r.2 then ⟨stripped, r.1, ran, true⟩
      else ⟨stripped, r.1, url :: ran, false⟩
    else ⟨stripped, [], ran, false⟩

/-- Events produced by `_insertEl(el)` (lines 162–182): either the
component-injection path or the raw `InlineSVGService.insertEl` path, both
carrying the same placement flags. -/
def insertElEvents (cfg : Config) (el : Content) : List Event :=
  if cfg.injectComponent then [Event.insertComp el cfg.replaceContents cfg.prepend]
  else [Event.insertRaw el cfg.replaceContents cfg.prepend]

/-- The fallback-image insertion of `_fail` (lines 222–228): performed only when
`fallbackImgUrl` is truthy. -/
def fallbackEvents (cfg : Config) : List Event :=
  match cfg.fallbackImgUrl with
  | some fb => if fb == "" then [] else insertElEvents cfg (Content.img fb)
  | none => []

/-- Embedding of `_fail(msg)` (lines 219–229): emit on `onSVGFailed`, then
insert the fallback image when configured. -/
def _fail (cfg : Config) (msg : String) : List Event :=
  Event.emitFailed msg :: fallbackEvents cfg

/-- The exact failure message of `_insertSVG` for a missing URL. -/
def noUrlMsg : String := "No URL passed to [inlineSVG]"

/-- Modelled from the spec: `SvgUtil.removeAttributes` (svg-util.ts is not in
src/) — removes each named attribute from the root element only.  The directive
applies it only when `removeSVGAttributes` is set and the platform is a
browser (line 134). -/
def applyRemoveAttrs (cfg : Config) (svg : SvgElem) : SvgElem :=
  match cfg.removeSVGAttributes with
  | some names =>
    if cfg.isBrowser then
      { svg with rootAttrs := svg.rootAttrs.filter (fun p => !(names.contains p.1)) }
    else svg
  | none => svg

/-- The `onSVGLoaded` hook application of `_processSvg` (lines 138–140): when a
hook is set, its return value replaces the working element wholesale; the code
performs no check on that return value. -/
def hookApply (cfg : Config) (svg : SvgElem) : Option SvgElem :=
  match cfg.onSVGLoaded with
  | some hook => hook svg
  | none => some svg

/-- The `forceEvalStyles` step (lines 148–151): `tag.textContent += ''` on every
style tag — an observably idempotent rewrite of each style's text. -/
def stylesForced (cfg : Config) (svg : SvgElem) : SvgElem :=
  if cfg.forceEvalStyles then { svg with styles := svg.styles.map (fun t => t ++ "") }
  else svg

/-- Result of `_processSvg`: its events, the updated `_ranScripts` record, and
whether an uncaught exception escaped (a throwing script, or a DOM call on a
missing element). -/
structure ProcOut where
  events : List Event
  ranScripts : List String
  crashed : Bool
deriving DecidableEq

/-- The tail of `_processSvg` from `_insertEl` onward (lines 142–153), applied
to the working element after attribute removal and the `onSVGLoaded` hook.
When the working element is missing (`null`), `_insertEl` still runs, and the
next DOM access throws a `TypeError`: `svg.querySelectorAll('script')` in
`_evalScripts` on a browser, or `svg.querySelectorAll('style')` when
`forceEvalStyles` is set on a server; with neither, `onSVGInserted` emits the
missing value. -/
def _processSvgRest (cfg : Config) (ran : List String) (url : String)
    (working : Option SvgElem) : ProcOut :=
  match working with
  | none =>
    if cfg.isBrowser then ⟨insertElEvents cfg Content.missing, ran, true⟩
    else if cfg.forceEvalStyles then ⟨insertElEvents cfg Content.missing, ran, true⟩
    else ⟨insertElEvents cfg Content.missing ++ [Event.emitInserted Content.missing], ran, false⟩
  | some svg =>
    let eo := _evalScripts cfg ran url svg
    if eo.threw then
      ⟨insertElEvents cfg (Content.svg svg) ++ eo.events, eo.ranScripts, true⟩
    else
      ⟨insertElEvents cfg (Content.svg svg) ++ eo.events ++
        [Event.emitInserted (Content.svg (stylesForced cfg eo.svg))],
       eo.ranScripts, false⟩

/-- Embedding of `_processSvg(svg)` (lines 131–154): guard against a missing
document, attribute removal, hook, insertion, script evaluation, style forcing,
success emission — in source order. -/
def _processSvg (cfg : Config) (ran : List String) (url : String)
    (svg? : Option SvgElem) : ProcOut :=
  match svg? with
  | none => ⟨[], ran, false⟩
  | some svg0 => _processSvgRest cfg ran url (hookApply cfg (applyRemoveAttrs cfg svg0))

/-- Modelled from the spec: `SvgUtil.isUrlSymbol` (svg-util.ts is not in src/)
— a fragment URL `document#id` addresses a named symbol. -/
def isUrlSymbol (url : String) : Bool :=
  url.data.contains '#'

/-- Embedding of `this.inlineSVG.split('#')[1]` (line 113). -/
def symbolIdOf (url : String) : String :=
  String.mk ((url.data.splitOn '#').getD 1 [])

/-- Modelled from the spec: `SvgUtil.createSymbolSvg` (svg-util.ts is not in
src/) — synthesizes a standalone SVG wrapper copying the symbol's viewBox, or
yields nothing when no symbol matches the fragment id. -/
def createSymbolSvg (svg : SvgElem) (symbolId : String) : Option SvgElem :=
  match svg.symbols.find? (fun s => s.symbolId == symbolId) with
  | some sym => some ⟨[("viewBox", sym.viewBox)], [], [], []⟩
  | none => none

/-- State of one directive instance composed with its cache, plus the
accumulated event trace.  `activeSubs` holds the subscriptions created by
`_insertSVG` that are still waiting for a fetch and have not been unsubscribed
— the directive stores only the most recent one in `subscription`
(`this._subscription`), so that is the only one `ngOnDestroy` can unsubscribe.
`cacheReady`/`cachePending` are the (spec-modelled) shared store of
`SVGCacheService`. -/
structure MState where
  inlineSVG : String
  prevUrl : Option String
  ranScripts : List String
  subscription : Option Nat
  activeSubs : List (Nat × String)
  nextId : Nat
  cacheReady : List (String × SvgElem)
  cachePending : List String
  events : List Event
  crashed : Bool
deriving DecidableEq

/-- The fresh state of a directive instance over an empty cache. -/
def initState : MState :=
  ⟨"", none, [], none, [], 0, [], [], [], false⟩

/-- The success callback of the `getSVG` subscription (lines 111–118): symbol
extraction when the *current* `inlineSVG` is a fragment URL, then
`_processSvg`. -/
def runSuccessCb (cfg : Config) (st : MState) (svg : SvgElem) : MState :=
  let url := st.inlineSVG
  let svg? : Option SvgElem :=
    if isUrlSymbol url then createSymbolSvg svg (symbolIdOf url) else some svg
  let po := _processSvg cfg st.ranScripts url svg?
  { st with ranScripts := po.ranScripts,
            events := st.events ++ po.events,
            crashed := st.crashed || po.crashed }

/-- Embedding of `_insertSVG()` (lines 94–123) composed with the spec-modelled
`SVGCacheService.getSVG` (spec §4.1): platform/support guard, missing-URL
failure, identical-URL short circuit, `_prevUrl` update, then the cache: a
`Ready` hit resolves synchronously, a `Pending` entry enqueues a waiter with no
new fetch, otherwise (or with `cacheSVG` false) a fetch starts. -/
def insertSVGStep (cfg : Config) (st : MState) : MState :=
  if !cfg.isServer && !cfg.supportsSVG then st
  else if st.inlineSVG = "" then
    { st with events := st.events ++ _fail cfg noUrlMsg }
  else if some st.inlineSVG = st.prevUrl then st
  else
    let url := st.inlineSVG
    let st1 : MState :=
      { st with prevUrl := some url,
                events := st.events ++ [Event.getSVG url cfg.cacheSVG],
                subscription := some st.nextId,
                nextId := st.nextId + 1 }
    let sid := st.nextId
    if cfg.cacheSVG then
      match (st1.cacheReady.find? (fun p => p.1 == url)).map (fun p => p.2) with
      | some doc =>
        runSuccessCb cfg { st1 with events := st1.events ++ [Event.cacheHit url] } doc
      | none =>
        if st1.cachePending.contains url then
          { st1 with activeSubs := st1.activeSubs ++ [(sid, url)] }
        else
          { st1 with cachePending := url :: st1.cachePending,
                     events := st1.events ++ [Event.fetch url],
                     activeSubs := st1.activeSubs ++ [(sid, url)] }
    else
      { st1 with events := st1.events ++ [Event.fetch url],
                 activeSubs := st1.activeSubs ++ [(sid, url)] }

/-- A network fetch for `url` completes successfully with document `svg`: the
cache entry (if this was a caching fetch) transitions to `Ready` and is
retained; every still-subscribed waiter for `url` gets its success callback. -/
def fetchOkStep (cfg : Config) (st : MState) (url : String) (svg : SvgElem) : MState :=
  let waiters := st.activeSubs.filter (fun p => p.2 == url)
  let st1 : MState :=
    if st.cachePending.contains url then
      { st with cachePending := st.cachePending.erase url,
                cacheReady := (url, svg) :: st.cacheReady }
    else st
  let st2 : MState := { st1 with activeSubs := st1.activeSubs.filter (fun p => !(p.2 == url)) }
  waiters.foldl (fun s _ => runSuccessCb cfg s svg) st2

/-- A network fetch for `url` fails with `err`: the pending cache entry is
discarded (never stored as failed), and every still-subscribed waiter runs the
error callback `(err) => this._fail(err)` (lines 119–121). -/
def fetchErrStep (cfg : Config) (st : MState) (url : String) (err : String) : MState :=
  let waiters := st.activeSubs.filter (fun p => p.2 == url)
  let st1 : MState :=
    if st.cachePending.contains url then
      { st with cachePending := st.cachePending.erase url }
    else st
  let st2 : MState := { st1 with activeSubs := st1.activeSubs.filter (fun p => !(p.2 == url)) }
  waiters.foldl (fun s _ => { s with events := s.events ++ _fail cfg err }) st2

/-- Embedding of `ngOnDestroy()` (lines 88–92): unsubscribes `this._subscription` — the most
recent subscription only. -/
def destroyStep (st : MState) : MState :=
  match st.subscription with
  | some sid => { st with activeSubs := st.activeSubs.filter (fun p => !(p.1 == sid)) }
  | none => st

/-- External stimuli of one directive instance: a lifecycle-driven load with a
new `inlineSVG` binding (`ngOnInit`/`ngOnChanges` → `_insertSVG`), completion
of an in-flight fetch, and destruction. -/
inductive Action where
  | load (url : String)
  | fetchOk (url : String) (svg : SvgElem)
  | fetchErr (url : String) (err : String)
  | destroy
deriving DecidableEq

/-- One machine step. -/
def step (cfg : Config) (st : MState) : Action → MState
  | Action.load url => insertSVGStep cfg { st with inlineSVG := url }
  | Action.fetchOk url svg => fetchOkStep cfg st url svg
  | Action.fetchErr url err => fetchErrStep cfg st url err
  | Action.destroy => destroyStep st

/-- Run a sequence of actions from a state. -/
def run (cfg : Config) (st : MState) : List Action → MState
  | [] => st
  | a :: rest => run cfg (step cfg st a) rest

/-- Recognizer for script-execution events. -/
def isExecEvent : Event → Bool
  | Event.execScript _ => true
  | _ => false

/-- The Bool guard of `_evalScripts`'s run branch (lines 209–210), written out
over the discovered eligible scripts. -/
def evalGuard (cfg : Config) (ran : List String) (url : String) (svg : SvgElem) : Bool :=
  (svg.scripts.filter eligible).length > 0 &&
    (cfg.evalScripts == EvalMode.always ||
      (cfg.evalScripts == EvalMode.once && !(ran.contains url)))

/-! ### Shared concrete inputs for witnesses and counterexamples -/

/-- Default-like configuration on a browser: `replaceContents` true, `prepend`
false, raw insertion, caching on, scripts `always`, no fallback, no hook. -/
def cfg0 : Config :=
  { replaceContents := true, prepend := false, injectComponent := false,
    cacheSVG := true, removeSVGAttributes := none, forceEvalStyles := false,
    evalScripts := EvalMode.always, fallbackImgUrl := none, onSVGLoaded := none,
    isBrowser := true, isServer := false, supportsSVG := true }

/-- The default configuration with a given script policy. -/
def cfgMode (m : EvalMode) : Config := { cfg0 with evalScripts := m }

/-- An SVG document carrying one eligible, non-throwing script `sA`. -/
def svgA : SvgElem := ⟨[("data-k", "A")], [⟨none, "sA", false⟩], [], []⟩

/-- An SVG document carrying one eligible, non-throwing script `sB`. -/
def svgB : SvgElem := ⟨[], [⟨none, "sB", false⟩], [], []⟩

/-- An SVG document with no scripts, styles or symbols. -/
def svgPlain : SvgElem := ⟨[("data-k", "P")], [], [], []⟩

/-- An SVG document whose one eligible script throws when executed. -/
def svgThrow : SvgElem := ⟨[], [⟨none, "boom", true⟩], [], []⟩

/-- The default configuration with an `onSVGLoaded` hook that returns a missing
value. -/
def cfgHook : Config := { cfg0 with onSVGLoaded := some (fun _ => none) }

/-- The default configuration with a fallback image URL. -/
def cfgFb : Config := { cfg0 with fallbackImgUrl := some "fallback.png" }

/-- A state with one still-pending subscription (id 0) waiting on URL `"a"`,
whose fetch is in flight. -/
def stC2 : MState := ⟨"a", some "a", [], some 0, [(0, "a")], 1, [], ["a"], [], false⟩

/-- A state with one still-pending subscription (id 0) waiting on URL `"f"`. -/
def stF : MState := ⟨"f", some "f", [], some 0, [(0, "f")], 1, [], ["f"], [], false⟩

/-- Recognizer for failure-emission events. -/
def isFailEvent : Event → Bool
  | Event.emitFailed _ => true
  | _ => false

/-! ### Helper lemmas -/

lemma filter_eligible_strip (l : List Script) :
    (l.filter (fun s => !eligible s)).filter eligible = [] := by
  induction l with
  | nil => rfl
  | cons s rest ih =>
    by_cases he : eligible s = true
    · simp [List.filter_cons, he, ih]
    · simp only [Bool.not_eq_true] at he
      simp [List.filter_cons, he, ih]

lemma runScripts_events_exec (l : List Script) :
    ∀ ev ∈ (runScripts l).1, isExecEvent ev = true := by
  induction l with
  | nil => simp [runScripts]
  | cons s rest ih =>
    intro ev hev
    by_cases hthr : s.throws = true
    · simp [runScripts, hthr] at hev
      simp [hev, isExecEvent]
    · simp only [Bool.not_eq_true] at hthr
      simp [runScripts, hthr] at hev
      rcases hev with h | h
      · simp [h, isExecEvent]
      · exact ih ev h

lemma runScripts_noThrow (l : List Script) (h : (runScripts l).2 = false) :
    (runScripts l).1 = l.map (fun s => Event.execScript s.text) ∧
    ∀ s ∈ l, s.throws = false := by
  induction l with
  | nil => simp [runScripts]
  | cons s rest ih =>
    by_cases hthr : s.throws = true
    · simp [runScripts, hthr] at h
    · simp only [Bool.not_eq_true] at hthr
      simp only [runScripts, hthr, if_false, Bool.false_eq_true] at h ⊢
      rcases ih h with ⟨h1, h2⟩
      refine ⟨by simp [h1], ?_⟩
      intro t ht
      rcases List.mem_cons.mp ht with rfl | ht
      · exact hthr
      · exact h2 t ht

lemma evalScripts_strips (cfg : Config) (ran : List String) (url : String)
    (svg : SvgElem) (hb : cfg.isBrowser = true) :
    (_evalScripts cfg ran url svg).svg.scripts.filter eligible = [] := by
  unfold _evalScripts
  simp only [hb, Bool.not_true, Bool.false_eq_true, if_false]
  split
  · split
    · exact filter_eligible_strip _
    · exact filter_eligible_strip _
  · exact filter_eligible_strip _

lemma evalScripts_events_exec (cfg : Config) (ran : List String) (url : String)
    (svg : SvgElem) :
    ∀ ev ∈ (_evalScripts cfg ran url svg).events, isExecEvent ev = true := by
  intro ev hev
  unfold _evalScripts at hev
  split at hev
  · simp at hev
  · dsimp only at hev
    split at hev
    · split at hev
      · exact runScripts_events_exec _ ev hev
      · exact runScripts_events_exec _ ev hev
    · simp at hev

lemma evalScripts_cases (cfg : Config) (ran : List String) (url : String)
    (svg : SvgElem) (hb : cfg.isBrowser = true) :
    _evalScripts cfg ran url svg =
      if evalGuard cfg ran url svg = true then
        (if (runScripts (svg.scripts.filter eligible)).2 = true then
          ⟨{ svg with scripts := svg.scripts.filter (fun s => !eligible s) },
           (runScripts (svg.scripts.filter eligible)).1, ran, true⟩
         else
          ⟨{ svg with scripts := svg.scripts.filter (fun s => !eligible s) },
           (runScripts (svg.scripts.filter eligible)).1, url :: ran, false⟩)
      else
        ⟨{ svg with scripts := svg.scripts.filter (fun s => !eligible s) },
         [], ran, false⟩ := by
  unfold _evalScripts evalGuard
  simp [hb]

lemma foldl_fail_events_cache (cfg : Config) (e : String)
    (l : List (Nat × String)) (st : MState) :
    (l.foldl (fun s _ => { s with events := s.events ++ _fail cfg e }) st).cacheReady =
      st.cacheReady ∧
    (l.foldl (fun s _ => { s with events := s.events ++ _fail cfg e }) st).cachePending =
      st.cachePending := by
  induction l generalizing st with
  | nil => exact ⟨rfl, rfl⟩
  | cons a rest ih => exact ih _

lemma processSvg_plain_events (cfg : Config) (ran : List String) (url : String)
    (svg : SvgElem) (hbrowser : cfg.isBrowser = true) (hhook : cfg.onSVGLoaded = none)
    (hattrs : cfg.removeSVGAttributes = none) (hcomp : cfg.injectComponent = false)
    (hstyle : cfg.forceEvalStyles = false) (hscripts : svg.scripts = []) :
    _processSvg cfg ran url (some svg) =
      ⟨[Event.insertRaw (Content.svg svg) cfg.replaceContents cfg.prepend,
        Event.emitInserted (Content.svg svg)], ran, false⟩ := by
  obtain ⟨ra, sc, stl, sy⟩ := svg
  simp only at hscripts
  subst hscripts
  unfold _processSvg _processSvgRest hookApply applyRemoveAttrs _evalScripts
    insertElEvents stylesForced
  simp [hbrowser, hhook, hattrs, hcomp, hstyle]

lemma fetchOk_single_waiter_events (cfg : Config) (s : MState) (sid : Nat)
    (u : String) (svg : SvgElem)
    (hw : s.activeSubs.filter (fun p => p.2 == u) = [(sid, u)])
    (hbrowser : cfg.isBrowser = true) (hhook : cfg.onSVGLoaded = none)
    (hattrs : cfg.removeSVGAttributes = none) (hcomp : cfg.injectComponent = false)
    (hstyle : cfg.forceEvalStyles = false)
    (hsym : isUrlSymbol s.inlineSVG = false)
    (hscripts : svg.scripts = []) :
    (fetchOkStep cfg s u svg).events =
      s.events ++ [Event.insertRaw (Content.svg svg) cfg.replaceContents cfg.prepend,
                   Event.emitInserted (Content.svg svg)] := by
  unfold fetchOkStep runSuccessCb
  rw [hw]
  dsimp only
  split <;>
    simp [List.foldl_cons, List.foldl_nil, hsym,
      processSvg_plain_events cfg _ _ svg hbrowser hhook hattrs hcomp hstyle hscripts]

/-! ### C1 — identical-URL loads are a no-op -/

/-- C1: a load whose URL string equals the instance's `_prevUrl` is a complete
no-op — the machine state (cache, subscriptions, `_ranScripts`) and the event
trace are unchanged, so no cache access, no fetch, and no insertion or failure
emission happen; the comparison looks at the URL string only, since the
behaviour holds for every configuration `cfg`. -/
theorem load_same_url_is_noop (cfg : Config) (st : MState) (u : String)
    (hu : u ≠ "") (hprev : st.prevUrl = some u) :
    step cfg st (Action.load u) = { st with inlineSVG := u } := by
  unfold step insertSVGStep
  by_cases hg : (!cfg.isServer && !cfg.supportsSVG) = true
  · simp [hg]
  · simp only [Bool.not_eq_true] at hg
    simp [hg, hu, hprev]

/-- Witness for C1 at a concrete state whose previous URL is `"a"`. -/
theorem load_same_url_is_noop_witness :
    step cfg0 { initState with prevUrl := some "a" } (Action.load "a") =
      { { initState with prevUrl := some "a" } with inlineSVG := "a" } :=
  load_same_url_is_noop cfg0 { initState with prevUrl := some "a" } "a"
    (by decide) rfl

/-! ### C7 — missing URL fails before any cache access -/

/-- C7: a load with an empty/missing URL fails immediately: the only state
change is appending the `_fail` events for `'No URL passed to [inlineSVG]'`
(the `MissingUrl` failure), whose first event is the `onSVGFailed` emission;
`_prevUrl`, the cache and the subscriptions are untouched, and no `getSVG` or
fetch event occurs, so the failure precedes any cache access. -/
theorem empty_url_fails_before_cache (cfg : Config) (st : MState)
    (hplat : cfg.isServer = true ∨ cfg.supportsSVG = true) :
    step cfg st (Action.load "") =
      { st with inlineSVG := "", events := st.events ++ _fail cfg noUrlMsg } ∧
    (_fail cfg noUrlMsg).head? = some (Event.emitFailed noUrlMsg) := by
  constructor
  · unfold step insertSVGStep
    have hg : (!cfg.isServer && !cfg.supportsSVG) = false := by
      rcases hplat with h | h <;> simp [h]
    simp [hg]
  · rfl

/-- Witness for C7 on the default configuration from the initial state. -/
theorem empty_url_fails_before_cache_witness :
    step cfg0 initState (Action.load "") =
      { initState with inlineSVG := "",
                       events := initState.events ++ _fail cfg0 noUrlMsg } ∧
    (_fail cfg0 noUrlMsg).head? = some (Event.emitFailed noUrlMsg) :=
  empty_url_fails_before_cache cfg0 initState (Or.inr rfl)

/-! ### C9 — a missing cached document is processed silently -/

/-- C9: when the document delivered to `_processSvg` is missing (`null`), the
guard on line 132 returns at once: no events at all (no insertion, no success
emission, no failure emission), no `_ranScripts` change, no exception. -/
theorem processSvg_missing_doc_silent (cfg : Config) (ran : List String)
    (url : String) :
    _processSvg cfg ran url none = ⟨[], ran, false⟩ := rfl

lemma insertElEvents_length (cfg : Config) (c : Content) :
    (insertElEvents cfg c).length = 1 := by
  unfold insertElEvents
  split <;> rfl

/-! ### C10 — the `_ranScripts` record is written only after a clean run -/

/-- C10: on a browser, the `_ranScripts` record for the current URL is set
exactly when the run branch is taken and the evaluation loop over all
discovered scripts completes without any script throwing; a throwing script
leaves the record unchanged (so a later load under `once` re-executes); under
`always` with at least one eligible script and no throw the record is written;
and whenever the record did change, every eligible script was executed and none
threw. -/
theorem ranScripts_record_semantics (cfg : Config) (ran : List String)
    (url : String) (svg : SvgElem) (hb : cfg.isBrowser = true) :
    ((_evalScripts cfg ran url svg).ranScripts =
      if (evalGuard cfg ran url svg &&
          !(runScripts (svg.scripts.filter eligible)).2) = true
      then url :: ran else ran) ∧
    ((runScripts (svg.scripts.filter eligible)).2 = true →
      (_evalScripts cfg ran url svg).ranScripts = ran) ∧
    (cfg.evalScripts = EvalMode.always → svg.scripts.filter eligible ≠ [] →
      (runScripts (svg.scripts.filter eligible)).2 = false →
      (_evalScripts cfg ran url svg).ranScripts = url :: ran) ∧
    ((_evalScripts cfg ran url svg).ranScripts ≠ ran →
      (_evalScripts cfg ran url svg).events =
        (svg.scripts.filter eligible).map (fun s => Event.execScript s.text) ∧
      ∀ s ∈ svg.scripts.filter eligible, s.throws = false) := by
  rw [evalScripts_cases cfg ran url svg hb]
  by_cases hg : evalGuard cfg ran url svg = true
  · by_cases ht : (runScripts (svg.scripts.filter eligible)).2 = true
    · simp [hg, ht]
    · simp only [Bool.not_eq_true] at ht
      refine ⟨by simp [hg, ht], by simp [ht], by simp [hg, ht], fun _ => ?_⟩
      obtain ⟨h1, h2⟩ := runScripts_noThrow _ ht
      exact ⟨by simp [hg, ht, h1], h2⟩
  · simp only [Bool.not_eq_true] at hg
    refine ⟨by simp [hg], by simp [hg], fun hm hne _ => ?_, by simp [hg]⟩
    exfalso
    have : evalGuard cfg ran url svg = true := by
      unfold evalGuard
      simp [hm, List.length_pos.mpr hne]
    simp [this] at hg

/-- Witness for C10: a clean `always` run records the URL; a run whose script
throws leaves the record empty. -/
theorem ranScripts_record_semantics_witness :
    (_evalScripts cfg0 [] "a" svgA).ranScripts = ["a"] ∧
    (_evalScripts cfg0 [] "a" svgThrow).ranScripts = [] := by
  constructor
  · exact (ranScripts_record_semantics cfg0 [] "a" svgA rfl).2.2.1 rfl
      (by decide) (by decide)
  · exact (ranScripts_record_semantics cfg0 [] "a" svgThrow rfl).2.1 (by decide)

/-! ### C5 — per-load event order: insertion happens BEFORE script evaluation -/

/-- Counterexample to C5: on the default configuration with one embedded
script, `_processSvg` hands the element to the insertion sink first
(`_insertEl`, line 142), executes the script afterwards (`_evalScripts`,
line 144), and emits the success event last — so script evaluation does NOT
complete before the finished element reaches the `InsertionSink`. -/
theorem insert_before_scripts_cex :
    (_processSvg cfg0 [] "a" (some svgA)).events =
      [Event.insertRaw (Content.svg svgA) true false,
       Event.execScript "sA",
       Event.emitInserted (Content.svg ⟨[("data-k", "A")], [], [], []⟩)] := by
  decide

/-- C5 amended: for a load with no hook and no throwing script, the event list
of `_processSvg` is exactly one insertion hand-off, then the script-execution
events (every event of `_evalScripts` is a script execution), then the success
emission last — i.e. insertion precedes script evaluation, which precedes the
success event. -/
theorem processSvg_event_order (cfg : Config) (ran : List String) (url : String)
    (svg : SvgElem) (hhook : cfg.onSVGLoaded = none)
    (ht : (_evalScripts cfg ran url (applyRemoveAttrs cfg svg)).threw = false) :
    (_processSvg cfg ran url (some svg)).events =
      insertElEvents cfg (Content.svg (applyRemoveAttrs cfg svg)) ++
      (_evalScripts cfg ran url (applyRemoveAttrs cfg svg)).events ++
      [Event.emitInserted (Content.svg (stylesForced cfg
        (_evalScripts cfg ran url (applyRemoveAttrs cfg svg)).svg))] ∧
    (∀ ev ∈ (_evalScripts cfg ran url (applyRemoveAttrs cfg svg)).events,
      isExecEvent ev = true) ∧
    (insertElEvents cfg (Content.svg (applyRemoveAttrs cfg svg))).length = 1 := by
  refine ⟨?_, evalScripts_events_exec cfg ran url (applyRemoveAttrs cfg svg), ?_⟩
  · unfold _processSvg _processSvgRest hookApply
    simp [hhook, ht]
  · unfold insertElEvents
    split <;> rfl

/-- Witness for C5's amended order theorem on the default configuration. -/
theorem processSvg_event_order_witness :
    (_processSvg cfg0 [] "a" (some svgA)).events =
      insertElEvents cfg0 (Content.svg (applyRemoveAttrs cfg0 svgA)) ++
      (_evalScripts cfg0 [] "a" (applyRemoveAttrs cfg0 svgA)).events ++
      [Event.emitInserted (Content.svg (stylesForced cfg0
        (_evalScripts cfg0 [] "a" (applyRemoveAttrs cfg0 svgA)).svg))] ∧
    (insertElEvents cfg0 (Content.svg (applyRemoveAttrs cfg0 svgA))).length = 1 :=
  ⟨(processSvg_event_order cfg0 [] "a" svgA rfl (by decide)).1,
   (processSvg_event_order cfg0 [] "a" svgA rfl (by decide)).2.2⟩

/-! ### C6 — the hook's return value replaces the element; missing returns -/

/-- Counterexample to C6: with a hook that returns a missing value, the load
does NOT fail with `InvalidTransform` — no failure event is emitted at all;
the missing value is handed to the insertion sink and the next DOM access
throws an uncaught `TypeError` (`crashed`). -/
theorem hook_missing_return_cex :
    (_processSvg cfgHook [] "a" (some svgA)).events =
      [Event.insertRaw Content.missing true false] ∧
    (_processSvg cfgHook [] "a" (some svgA)).crashed = true :=
  ⟨rfl, rfl⟩

/-- C6 amended: the hook's return value fully replaces the working element —
the outcome of `_processSvg` depends only on that return value — but a missing
return value is not detected: no `InvalidTransform` (or any) failure event is
emitted; the missing value is handed to the insertion sink and the subsequent
script evaluation throws. -/
theorem hook_return_replaces_element (cfg : Config) (ran : List String)
    (url : String) (h : SvgElem → Option SvgElem) (svg₁ svg₂ : SvgElem)
    (hhook : cfg.onSVGLoaded = some h) :
    (h (applyRemoveAttrs cfg svg₁) = h (applyRemoveAttrs cfg svg₂) →
      _processSvg cfg ran url (some svg₁) = _processSvg cfg ran url (some svg₂)) ∧
    (h (applyRemoveAttrs cfg svg₁) = none → cfg.isBrowser = true →
      _processSvg cfg ran url (some svg₁) =
        ⟨insertElEvents cfg Content.missing, ran, true⟩ ∧
      (insertElEvents cfg Content.missing).filter isFailEvent = []) := by
  constructor
  · intro heq
    unfold _processSvg hookApply
    rw [hhook]
    dsimp only
    rw [heq]
  · intro hn hb
    constructor
    · unfold _processSvg hookApply
      rw [hhook]
      dsimp only
      rw [hn]
      unfold _processSvgRest
      simp [hb]
    · unfold insertElEvents
      split <;> rfl

/-- Witness for C6: the constant-`none` hook makes any two inputs
indistinguishable, and the missing return is inserted as-is with no failure
event. -/
theorem hook_return_replaces_element_witness :
    _processSvg cfgHook [] "a" (some svgA) = _processSvg cfgHook [] "a" (some svgB) ∧
    _processSvg cfgHook [] "a" (some svgA) =
      ⟨insertElEvents cfgHook Content.missing, [], true⟩ ∧
    (insertElEvents cfgHook Content.missing).filter isFailEvent = [] := by
  refine ⟨(hook_return_replaces_element cfgHook [] "a" (fun _ => none) svgA svgB
    rfl).1 rfl, ?_⟩
  exact (hook_return_replaces_element cfgHook [] "a" (fun _ => none) svgA svgB
    rfl).2 rfl rfl

/-! ### C8 — failure notification and fallback-image insertion -/

/-- C8: a failed load attempt (an in-flight fetch erroring with one subscribed
waiter) appends exactly the `_fail` events: the failure reason is emitted on
`onSVGFailed` first; when `fallbackImgUrl` is configured (truthy) exactly one
image element with `src` equal to the fallback URL goes through the same
`_insertEl` path used for success (hence subject to
`replaceContents`/`prepend`/`injectComponent`); when it is not configured,
nothing is inserted. -/
theorem fail_emits_and_inserts_fallback (cfg : Config) (st : MState) (sid : Nat)
    (u e : String)
    (hw : st.activeSubs.filter (fun p => p.2 == u) = [(sid, u)]) :
    (step cfg st (Action.fetchErr u e)).events = st.events ++ _fail cfg e ∧
    _fail cfg e = Event.emitFailed e :: fallbackEvents cfg ∧
    fallbackEvents cfg =
      (if truthyStr cfg.fallbackImgUrl = true
       then insertElEvents cfg (Content.img (cfg.fallbackImgUrl.getD ""))
       else []) ∧
    (fallbackEvents cfg).length =
      (if truthyStr cfg.fallbackImgUrl = true then 1 else 0) := by
  refine ⟨?_, rfl, ?_, ?_⟩
  · simp only [step]
    unfold fetchErrStep
    rw [hw]
    dsimp only
    split <;> rfl
  · unfold fallbackEvents truthyStr
    cases cfg.fallbackImgUrl with
    | none => rfl
    | some fb =>
      by_cases hfb : (fb == "") = true
      · simp [hfb]
      · simp only [Bool.not_eq_true] at hfb
        simp [hfb]
  · unfold fallbackEvents truthyStr
    cases cfg.fallbackImgUrl with
    | none => rfl
    | some fb =>
      by_cases hfb : (fb == "") = true
      · simp [hfb]
      · simp only [Bool.not_eq_true] at hfb
        simp [hfb, insertElEvents_length]

/-! ### C3 — failures are not cached, but the retry needs a different prior URL -/

/-- Counterexample to C3: after a load of `"a"` fails with a fetch error, a
later load call for the very same URL on the same instance does NOT perform the
fetch again — `_prevUrl` was already set to `"a"` before subscribing (line 107),
so the identical-URL short circuit (line 104) returns before any cache access:
the trace holds exactly one `getSVG` call and one fetch for `"a"`, where the
claim requires a second fetch. -/
theorem failed_url_retry_cex :
    (run cfg0 initState [Action.load "a", Action.fetchErr "a" "boom",
      Action.load "a"]).events.count (Event.fetch "a") = 1 ∧
    (run cfg0 initState [Action.load "a", Action.fetchErr "a" "boom",
      Action.load "a"]).events.count (Event.getSVG "a" true) = 1 := by
  decide

/-- C3 amended: a fetch failure is never stored in the cache — the `Ready`
store is untouched and the pending entry for the URL is discarded — so a later
load of that URL fetches again, provided the instance's previous URL differs
(an immediately repeated identical URL is suppressed by the `_prevUrl` short
circuit and performs no new fetch). -/
theorem fetch_failure_not_cached_retry (cfg : Config) (stf str : MState)
    (u e : String)
    (hserver : cfg.isServer = false) (hsup : cfg.supportsSVG = true)
    (hcache : cfg.cacheSVG = true)
    (hu : u ≠ "") (hprev : str.prevUrl ≠ some u)
    (hready : str.cacheReady.find? (fun p => p.1 == u) = none)
    (hpend : str.cachePending.contains u = false) :
    (step cfg stf (Action.fetchErr u e)).cacheReady = stf.cacheReady ∧
    (step cfg stf (Action.fetchErr u e)).cachePending = stf.cachePending.erase u ∧
    (step cfg str (Action.load u)).events =
      str.events ++ [Event.getSVG u true, Event.fetch u] := by
  have hprev2 : ¬ (some u = str.prevUrl) := fun hh => hprev hh.symm
  refine ⟨?_, ?_, ?_⟩
  · simp only [step]
    unfold fetchErrStep
    dsimp only
    rw [(foldl_fail_events_cache cfg e _ _).1]
    split <;> rfl
  · simp only [step]
    unfold fetchErrStep
    dsimp only
    rw [(foldl_fail_events_cache cfg e _ _).2]
    split
    · rfl
    · next hc =>
      simp at hc
      exact (List.erase_of_not_mem hc).symm
  · have hpend2 : u ∉ str.cachePending := by simpa using hpend
    unfold step insertSVGStep
    simp [hserver, hsup, hu, hprev2, hcache, hready, hpend2]

/-- Witness for C3's amended theorem: a failing state with a pending entry for
`"a"`, and a retry state whose previous URL is `"b"`. -/
theorem fetch_failure_not_cached_retry_witness :
    (step cfg0 stC2 (Action.fetchErr "a" "boom")).cacheReady = stC2.cacheReady ∧
    (step cfg0 stC2 (Action.fetchErr "a" "boom")).cachePending =
      stC2.cachePending.erase "a" ∧
    (step cfg0 { initState with prevUrl := some "b" } (Action.load "a")).events =
      ({ initState with prevUrl := some "b" } : MState).events ++
        [Event.getSVG "a" true, Event.fetch "a"] :=
  fetch_failure_not_cached_retry cfg0 stC2 { initState with prevUrl := some "b" }
    "a" "boom" rfl rfl rfl (by decide) (by decide) rfl (by decide)

/-! ### C2 — a superseded in-flight load is NOT cancelled -/

/-- Counterexample to C2: load `"a"` (fetch pending), then load `"b"`, then the
fetch for `"a"` resolves — after the newer request was issued.  The stale
outcome is not discarded: the `"a"` document is still handed to the insertion
sink, because `_insertSVG` overwrites `this._subscription` without
unsubscribing the previous subscription (only `ngOnDestroy` unsubscribes). -/
theorem stale_inflight_result_inserted_cex :
    Event.insertRaw (Content.svg svgA) true false ∈
      (run cfg0 initState [Action.load "a", Action.load "b",
        Action.fetchOk "a" svgA]).events := by
  decide

/-- C2 amended: starting a new load for a different URL does not cancel the
previous pending subscription — it stays active — and when the superseded
load's outcome then resolves, it is processed in full: the stale document is
handed to the insertion sink and the insertion event is emitted. -/
theorem stale_inflight_result_not_cancelled (cfg : Config) (st : MState)
    (sid : Nat) (u v : String) (svg : SvgElem)
    (hserver : cfg.isServer = false) (hsup : cfg.supportsSVG = true)
    (hbrowser : cfg.isBrowser = true) (hhook : cfg.onSVGLoaded = none)
    (hattrs : cfg.removeSVGAttributes = none) (hcomp : cfg.injectComponent = false)
    (hstyle : cfg.forceEvalStyles = false) (hcache : cfg.cacheSVG = true)
    (hv : v ≠ "") (hvu : u ≠ v) (hvp : st.prevUrl ≠ some v)
    (hsym : isUrlSymbol v = false)
    (hready : st.cacheReady.find? (fun p => p.1 == v) = none)
    (hpend : st.cachePending.contains v = false)
    (hw : st.activeSubs.filter (fun p => p.2 == u) = [(sid, u)])
    (hscripts : svg.scripts = []) :
    (sid, u) ∈ (step cfg st (Action.load v)).activeSubs ∧
    (step cfg (step cfg st (Action.load v)) (Action.fetchOk u svg)).events =
      (step cfg st (Action.load v)).events ++
        [Event.insertRaw (Content.svg svg) cfg.replaceContents cfg.prepend,
         Event.emitInserted (Content.svg svg)] := by
  have hvp2 : ¬ (some v = st.prevUrl) := fun hh => hvp hh.symm
  have hstep : step cfg st (Action.load v) =
      { st with inlineSVG := v, prevUrl := some v,
                events := st.events ++ [Event.getSVG v true] ++ [Event.fetch v],
                subscription := some st.nextId, nextId := st.nextId + 1,
                cachePending := v :: st.cachePending,
                activeSubs := st.activeSubs ++ [(st.nextId, v)] } := by
    unfold step insertSVGStep
    have hpend2 : v ∉ st.cachePending := by simpa using hpend
    simp [hserver, hsup, hv, hvp2, hcache, hready, hpend2]
  have hmem : (sid, u) ∈ st.activeSubs := by
    have hx : (sid, u) ∈ st.activeSubs.filter (fun p => p.2 == u) := by
      rw [hw]
      exact List.mem_singleton_self _
    exact List.mem_of_mem_filter hx
  have hvu2 : (v == u) = false := beq_eq_false_iff_ne.mpr (Ne.symm hvu)
  have hfw : (st.activeSubs ++ [(st.nextId, v)]).filter (fun p => p.2 == u) =
      [(sid, u)] := by
    rw [List.filter_append, hw]
    simp [hvu2]
  constructor
  · rw [hstep]
    exact List.mem_append_left _ hmem
  · rw [hstep]
    simp only [step]
    exact fetchOk_single_waiter_events cfg _ sid u svg hfw hbrowser hhook hattrs
      hcomp hstyle hsym hscripts

/-- Witness for C2's amended theorem at a concrete pending state. -/
theorem stale_inflight_result_not_cancelled_witness :
    (0, "a") ∈ (step cfg0 stC2 (Action.load "b")).activeSubs ∧
    (step cfg0 (step cfg0 stC2 (Action.load "b")) (Action.fetchOk "a" svgPlain)).events =
      (step cfg0 stC2 (Action.load "b")).events ++
        [Event.insertRaw (Content.svg svgPlain) true false,
         Event.emitInserted (Content.svg svgPlain)] :=
  stale_inflight_result_not_cancelled cfg0 stC2 0 "a" "b" svgPlain
    rfl rfl rfl rfl rfl rfl rfl rfl
    (by decide) (by decide) (by decide) (by decide) rfl (by decide) (by decide) rfl

/-! ### C4 — script-execution counts under the three policies -/

/-- Counterexample to C4: with `evalScripts="always"`, two successive loads of
the same URL on the same instance execute the embedded script exactly ONCE in
total, not twice — the second load is short-circuited by the identical-URL
comparison before it reaches the cache or the script evaluator. -/
theorem evalScripts_always_twice_cex :
    (run (cfgMode EvalMode.always) initState
      [Action.load "a", Action.fetchOk "a" svgA, Action.load "a"]).events.count
      (Event.execScript "sA") = 1 := by
  decide

/-- C4 amended: on a browser every eligible script is stripped from the element
under all policies; two successive loads of the same URL execute its script
once under `always` and `once` and zero times under `never` (the second load is
a no-op); and when the URL is loaded again after an intervening different URL,
the totals are two under `always`, one under `once`, zero under `never`. -/
theorem evalScripts_policy_counts_and_strip (m : EvalMode) (cfg : Config)
    (ran : List String) (url : String) (svg : SvgElem)
    (hb : cfg.isBrowser = true) :
    (_evalScripts cfg ran url svg).svg.scripts.filter eligible = [] ∧
    ((run (cfgMode m) initState
        [Action.load "a", Action.fetchOk "a" svgA, Action.load "a"]).events.count
        (Event.execScript "sA") =
      match m with
      | EvalMode.always => 1
      | EvalMode.once => 1
      | EvalMode.never => 0) ∧
    ((run (cfgMode m) initState
        [Action.load "a", Action.fetchOk "a" svgA, Action.load "b",
         Action.fetchOk "b" svgB, Action.load "a"]).events.count
        (Event.execScript "sA") =
      match m with
      | EvalMode.always => 2
      | EvalMode.once => 1
      | EvalMode.never => 0) := by
  refine ⟨evalScripts_strips cfg ran url svg hb, ?_, ?_⟩
  · cases m <;> decide
  · cases m <;> decide

/-- Witness for C4's amended theorem: stripping on the default configuration,
and the `always` total of two across an `"a"`, `"b"`, `"a"` load sequence. -/
theorem evalScripts_policy_counts_and_strip_witness :
    (_evalScripts cfg0 [] "a" svgA).svg.scripts.filter eligible = [] ∧
    (run (cfgMode EvalMode.always) initState
      [Action.load "a", Action.fetchOk "a" svgA, Action.load "b",
       Action.fetchOk "b" svgB, Action.load "a"]).events.count
      (Event.execScript "sA") = 2 :=
  ⟨(evalScripts_policy_counts_and_strip EvalMode.always cfg0 [] "a" svgA rfl).1,
   (evalScripts_policy_counts_and_strip EvalMode.always cfg0 [] "a" svgA rfl).2.2⟩

/-- Witness for C8 with a configured fallback image and one failing waiter. -/
theorem fail_emits_and_inserts_fallback_witness :
    (step cfgFb stF (Action.fetchErr "f" "err")).events =
      stF.events ++ _fail cfgFb "err" ∧
    _fail cfgFb "err" = Event.emitFailed "err" :: fallbackEvents cfgFb ∧
    fallbackEvents cfgFb =
      (if truthyStr cfgFb.fallbackImgUrl = true
       then insertElEvents cfgFb (Content.img (cfgFb.fallbackImgUrl.getD ""))
       else []) ∧
    (fallbackEvents cfgFb).length =
      (if truthyStr cfgFb.fallbackImgUrl = true then 1 else 0) :=
  fail_emits_and_inserts_fallback cfgFb stF 0 "f" "err" (by decide)

end InlineSVG
